import Mathlib

/-!
Verification of the Keenetic control module: a shallow embedding of the
REST client (request/retry pipeline, domain operation surface, aggregate
export, YAML transcription, and the process-wide singleton accessor),
with theorems settling the specification's claims against it.

Modelling conventions:
* JSON values are the inductive `Json`; a response body is `Option Json`
  (`none` stands for a body on which `response.json()` fails to parse).
* The transport (`fetch`) is a function from the request and the attempt
  index to an outcome, so that "fails k times then succeeds" is expressible
  and invocations are countable; `request` returns its result paired with
  the number of transport invocations it made.
* JavaScript numeric truthiness (`x || d` with `0` falsy) is modelled by
  `orFalsyNat`; optional fields are `Option` fields.
* JS object spread for headers is modelled as an assignment list read with
  last-assignment-wins lookup (`headerLookup`), which is exactly the
  property map an object literal with spreads denotes.
-/

/-- JSON values (JS objects keep their keys in insertion order). -/
inductive Json where
| null : Json
| bool (b : Bool) : Json
| num (n : Int) : Json
| str (s : String) : Json
| arr (items : List Json) : Json
| obj (fields : List (String × Json)) : Json

/-- One character of a JSON string literal, escaped as `JSON.stringify` does
for the characters the claims exercise. -/
def jsonEscapeChar (c : Char) : String :=
if c = '"' then "\\\""
else if c = '\\' then "\\\\"
else if c = '\n' then "\\n"
else if c = '\r' then "\\r"
else if c = '\t' then "\\t"
else String.mk [c]

/-- Escape a string for a JSON string literal. -/
def jsonEscape (s : String) : String :=
String.join (s.data.map jsonEscapeChar)

mutual

/-- `JSON.stringify` with no spacing argument: compact separators, keys in
insertion order. -/
def jsonStringify : Json → String
| .null => "null"
| .bool b => toString b
| .num n => toString n
| .str s => "\"" ++ jsonEscape s ++ "\""
| .arr items => "[" ++ String.intercalate "," (jsonStringifyItems items) ++ "]"
| .obj fields => "\x7b" ++ String.intercalate "," (jsonStringifyFields fields) ++ "\x7d"

/-- The rendered elements of a JSON array. -/
def jsonStringifyItems : List Json → List String
| [] => []
| x :: xs => jsonStringify x :: jsonStringifyItems xs

/-- The rendered `"key":value` members of a JSON object. -/
def jsonStringifyFields : List (String × Json) → List String
| [] => []
| (k, v) :: fs => ("\"" ++ jsonEscape k ++ "\":" ++ jsonStringify v) :: jsonStringifyFields fs

end

/-- The base64 alphabet. -/
def base64Chars : List Char :=
"ABCDEFGHIJKLMNOPQRSTUVWXYZabcdefghijklmnopqrstuvwxyz0123456789+/".data

/-- The base64 digit for a 6-bit group. -/
def base64Char (n : Nat) : Char := base64Chars.getD n 'A'

/-- Base64 of a byte list, with `=` padding, as `btoa` produces. -/
def base64EncodeBytes : List Nat → String
| [] => ""
| [b1] =>
  String.mk [base64Char (b1 / 4), base64Char (b1 % 4 * 16)] ++ "=="
| [b1, b2] =>
  String.mk [base64Char (b1 / 4), base64Char (b1 % 4 * 16 + b2 / 16),
    base64Char (b2 % 16 * 4)] ++ "="
| b1 :: b2 :: b3 :: rest =>
  String.mk [base64Char (b1 / 4), base64Char (b1 % 4 * 16 + b2 / 16),
    base64Char (b2 % 16 * 4 + b3 / 64), base64Char (b3 % 64)] ++
  base64EncodeBytes rest

/-- `btoa` on a latin1 string: base64 of its code points. -/
def btoa (s : String) : String :=
base64EncodeBytes (s.data.map Char.toNat)

/-- `KeeneticCredentials`: connection parameters of the client. -/
structure KeeneticCredentials where
  host : String
  username : String
  password : String
  port : Option Nat
  secure : Option Bool
deriving DecidableEq, Repr

/-- `KeeneticControlOptions`: construction options, optional tunables. -/
structure KeeneticControlOptions where
  credentials : KeeneticCredentials
  timeout : Option Nat
  retryCount : Option Nat
  retryDelay : Option Nat
  debug : Option Bool
deriving DecidableEq, Repr

/-- JS `x || d` on an optional number: `0` (and absence) is falsy and
yields the default. -/
def orFalsyNat (x : Option Nat) (d : Nat) : Nat :=
match x with
| some n => if n = 0 then d else n
| none => d

/-- The constructed client state (`KeeneticControl`'s fields after the
constructor ran). -/
structure KeeneticControl where
  credentials : KeeneticCredentials
  timeout : Nat
  retryCount : Nat
  retryDelay : Nat
  debug : Bool
deriving DecidableEq, Repr

/-- The `KeeneticControl` constructor: each tunable defaulted through
JS `||` (10000 ms, 3 retries, 1000 ms, debug off). -/
def mkKeeneticControl (options : KeeneticControlOptions) : KeeneticControl :=
  { credentials := options.credentials
    timeout := orFalsyNat options.timeout 10000
    retryCount := orFalsyNat options.retryCount 3
    retryDelay := orFalsyNat options.retryDelay 1000
    debug := options.debug.getD false }

/-- `getBaseUrl`: protocol from the `secure` flag (`https` unless
`secure === false`), port suffix from JS truthiness of `port`. -/
def getBaseUrl (credentials : KeeneticCredentials) : String :=
  let protocol := if credentials.secure ≠ some false then "https" else "http"
  let portStr := match credentials.port with
    | some p => if p = 0 then "" else ":" ++ Nat.repr p
    | none => ""
  protocol ++ "://" ++ credentials.host ++ portStr

/-- `getAuthHeader`'s value: `"Basic "` plus base64 of `username:password`. -/
def authHeaderValue (credentials : KeeneticCredentials) : String :=
  "Basic " ++ btoa (credentials.username ++ ":" ++ credentials.password)

/-- The merged header object of `request`: the Basic credential assignment,
then `Content-Type`, then the caller's spread assignments (later
assignments win on lookup). -/
def requestHeaders (credentials : KeeneticCredentials)
    (callerHeaders : List (String × String)) : List (String × String) :=
  [("Authorization", authHeaderValue credentials),
   ("Content-Type", "application/json")] ++ callerHeaders

/-- Reading a property of the object an assignment list denotes:
the last assignment to the key wins. -/
def headerLookup (assignments : List (String × String)) (name : String) :
    Option String :=
  assignments.foldl (fun acc p => if p.1 = name then some p.2 else acc) none

/-- An HTTP request as the pipeline sees it: method (defaulted to `GET`
by `fetch` when the options carry none), path appended to the base URL,
and the optional serialized body. -/
structure Req where
  method : String
  path : String
  body : Option String
deriving DecidableEq, Repr

/-- One outcome of a transport invocation: a network-level failure
(connection error or timeout abort), or a response with a status and a
body (`none` when the body does not parse as JSON). -/
inductive Outcome where
| netErr : Outcome
| resp (status : Nat) (body : Option Json) : Outcome

/-- What one attempt of `request` produces on an outcome: a network error
is rethrown by `fetch`; a non-2xx status throws the `API error` message
path; a 2xx response is parsed, `response.json()` throwing on a
non-JSON body. -/
inductive ReqError where
| network : ReqError
| apiError (status : Nat) : ReqError
| parseError : ReqError

/-- The transport: the response of the server to the given request on the
given (0-based) attempt. -/
def Transport : Type := Req → Nat → Outcome

/-- The result of the body of `request`'s `try` block on one outcome. -/
def attemptResult : Outcome → Except ReqError Json
| .netErr => .error .network
| .resp status body =>
  if 200 ≤ status ∧ status < 300 then
    match body with
    | some j => .ok j
    | none => .error .parseError
  else .error (.apiError status)

/-- Whether an outcome takes `request` into its `catch` block. -/
def outcomeFails (o : Outcome) : Bool :=
match attemptResult o with
| .ok _ => false
| .error _ => true

/-- The recursion of `request`: try the current attempt; on failure with
retries remaining, wait `retryDelay` and recurse with one retry fewer.
Returns the result paired with the number of transport invocations. -/
def requestCore (t : Transport) (req : Req) : Nat → Nat → Except ReqError Json × Nat
| attempt, retries =>
  match attemptResult (t req attempt) with
  | .ok j => (.ok j, 1)
  | .error e =>
    match retries with
    | 0 => (.error e, 1)
    | r + 1 =>
      let rest := requestCore t req (attempt + 1) r
      (rest.1, rest.2 + 1)

/-- `request(endpoint, options, retries)`: the pipeline entry point,
starting at attempt 0 with `retries` retries remaining. -/
def request (t : Transport) (req : Req) (retries : Nat) : Except ReqError Json × Nat :=
  requestCore t req 0 retries

/-- The request `testConnection` issues. -/
def testConnectionReq : Req := ⟨"GET", "/rci/system/status", none⟩

/-- `testConnection`: probe `/rci/system/status` through the pipeline,
`true` on resolution, `false` on rejection; paired with the invocation
count of the underlying `request`. -/
def testConnection (t : Transport) (retryCount : Nat) : Bool × Nat :=
  let r := request t testConnectionReq retryCount
  (match r.1 with
   | .ok _ => true
   | .error _ => false, r.2)

/-- `getSystemInfo`'s request. -/
def getSystemInfoReq : Req := ⟨"GET", "/rci/show/system", none⟩

/-- `getInterfaces`' request. -/
def getInterfacesReq : Req := ⟨"GET", "/rci/show/interface", none⟩

/-- `getInterface`'s request. -/
def getInterfaceReq (name : String) : Req :=
  ⟨"GET", "/rci/show/interface/" ++ name, none⟩

/-- `configureInterface`'s request. -/
def configureInterfaceReq (name : String) (config : Json) : Req :=
  ⟨"PATCH", "/rci/interface/" ++ name, some (jsonStringify config)⟩

/-- `getWifiNetworks`' request. -/
def getWifiNetworksReq : Req := ⟨"GET", "/rci/show/interface/wireless", none⟩

/-- `configureWifiNetwork`'s request. -/
def configureWifiNetworkReq (ssid : String) (config : Json) : Req :=
  ⟨"PATCH", "/rci/wireless/ssid/" ++ ssid, some (jsonStringify config)⟩

/-- `createWifiNetwork`'s request. -/
def createWifiNetworkReq (config : Json) : Req :=
  ⟨"POST", "/rci/wireless/ssid", some (jsonStringify config)⟩

/-- `deleteWifiNetwork`'s request. -/
def deleteWifiNetworkReq (ssid : String) : Req :=
  ⟨"DELETE", "/rci/wireless/ssid/" ++ ssid, none⟩

/-- `getConnectedClients`' request. -/
def getConnectedClientsReq : Req := ⟨"GET", "/rci/show/ip/hotspot", none⟩

/-- `blockClient`'s request. -/
def blockClientReq (mac : String) : Req :=
  ⟨"POST", "/rci/ip/hotspot/mac/" ++ mac ++ "/block", none⟩

/-- `unblockClient`'s request. -/
def unblockClientReq (mac : String) : Req :=
  ⟨"POST", "/rci/ip/hotspot/mac/" ++ mac ++ "/unblock", none⟩

/-- `getVpnConnections`' request. -/
def getVpnConnectionsReq : Req := ⟨"GET", "/rci/show/vpn", none⟩

/-- `configureVpn`'s request. -/
def configureVpnReq (type_ : String) (config : Json) : Req :=
  ⟨"PATCH", "/rci/vpn/" ++ type_, some (jsonStringify config)⟩

/-- `getFirewallRules`' request. -/
def getFirewallRulesReq : Req := ⟨"GET", "/rci/show/ip/firewall", none⟩

/-- `addFirewallRule`'s request. -/
def addFirewallRuleReq (rule : Json) : Req :=
  ⟨"POST", "/rci/ip/firewall/rule", some (jsonStringify rule)⟩

/-- `updateFirewallRule`'s request (the numeric id interpolated into the
path). -/
def updateFirewallRuleReq (id : Nat) (rule : Json) : Req :=
  ⟨"PATCH", "/rci/ip/firewall/rule/" ++ Nat.repr id, some (jsonStringify rule)⟩

/-- `deleteFirewallRule`'s request. -/
def deleteFirewallRuleReq (id : Nat) : Req :=
  ⟨"DELETE", "/rci/ip/firewall/rule/" ++ Nat.repr id, none⟩

/-- `getDnsSettings`' request. -/
def getDnsSettingsReq : Req := ⟨"GET", "/rci/show/ip/dns", none⟩

/-- `configureDns`'s request. -/
def configureDnsReq (settings : Json) : Req :=
  ⟨"PATCH", "/rci/ip/dns", some (jsonStringify settings)⟩

/-- `getDhcpServers`' request. -/
def getDhcpServersReq : Req := ⟨"GET", "/rci/show/ip/dhcp/server", none⟩

/-- `configureDhcpServer`'s request. -/
def configureDhcpServerReq (interfaceName : String) (config : Json) : Req :=
  ⟨"PATCH", "/rci/ip/dhcp/server/" ++ interfaceName, some (jsonStringify config)⟩

/-- `getUsbDevices`' request. -/
def getUsbDevicesReq : Req := ⟨"GET", "/rci/show/usb", none⟩

/-- `executeCliCommand`'s request. -/
def executeCliCommandReq (command : String) : Req :=
  ⟨"POST", "/rci/cli/execute", some (jsonStringify (Json.obj [("command", Json.str command)]))⟩

/-- `executeSshCommand`'s request. -/
def executeSshCommandReq (command : String) : Req :=
  ⟨"POST", "/rci/ssh/execute", some (jsonStringify (Json.obj [("command", Json.str command)]))⟩

/-- `reboot`'s request. -/
def rebootReq : Req := ⟨"POST", "/rci/system/reboot", none⟩

/-- The path `backupConfiguration` fetches directly (GET, no pipeline). -/
def backupConfigurationPath : String := "/rci/system/configuration/export"

/-- The path `restoreConfiguration` posts its multipart form to. -/
def restoreConfigurationPath : String := "/rci/system/configuration/import"

/-- The path `updateFirmware` posts its multipart form to. -/
def updateFirmwarePath : String := "/rci/system/firmware/update"

/-- The `firewall` sub-object of the aggregate: placeholder `enabled` and
`defaultPolicy` around the fetched rules. -/
structure FirewallConfig where
  enabled : Bool
  defaultPolicy : String
  rules : Json

/-- `RouterConfiguration`: the composite the aggregate export returns,
fields in construction order. -/
structure RouterConfiguration where
  system : Json
  interfaces : Json
  wifi : Json
  clients : Json
  vpn : Json
  usb : Json
  firewall : FirewallConfig
  dns : Json
  dhcp : Json

/-- `getFullConfiguration`: the nine domain reads joined all-or-nothing
(`Promise.all` rejects the whole aggregate when any read rejects), each
read going through the pipeline with the client's retry count. -/
def getFullConfiguration (t : Transport) (retryCount : Nat) :
    Except ReqError RouterConfiguration := do
  let system ← (request t getSystemInfoReq retryCount).1
  let interfaces ← (request t getInterfacesReq retryCount).1
  let wifi ← (request t getWifiNetworksReq retryCount).1
  let clients ← (request t getConnectedClientsReq retryCount).1
  let vpn ← (request t getVpnConnectionsReq retryCount).1
  let usb ← (request t getUsbDevicesReq retryCount).1
  let firewall ← (request t getFirewallRulesReq retryCount).1
  let dns ← (request t getDnsSettingsReq retryCount).1
  let dhcp ← (request t getDhcpServersReq retryCount).1
  return { system := system, interfaces := interfaces, wifi := wifi,
           clients := clients, vpn := vpn, usb := usb,
           firewall := { enabled := true, defaultPolicy := "drop", rules := firewall },
           dns := dns, dhcp := dhcp }

/-- JS `String.prototype.trimStart`: drop leading whitespace characters. -/
def jsTrimStart (s : String) : String :=
  String.mk (s.data.dropWhile Char.isWhitespace)

/-- `" ".repeat(n)`. -/
def spacesN (n : Nat) : String := String.mk (List.replicate n ' ')

/-- The punctuation set whose presence makes the YAML transcription quote
a scalar string. -/
def yamlQuoteChars : List Char :=
[':', '#', '\x7b', '\x7d', '[', ']', ',', '&', '*', '?', '|', '<', '>', '=', '!', '%', '@', '\x60']

/-- Whether a scalar string is quoted by the YAML transcription. -/
def yamlNeedsQuote (s : String) : Bool :=
s.data.any (fun c => yamlQuoteChars.contains c)

mutual

/-- `jsonToYaml(json, indent)`: the hand-rolled JSON→YAML transcription.
Scalars render inline (strings quoted when they contain listed
punctuation, `"` escaped); empty containers render as `[]` / `\x7b\x7d`;
a non-empty array renders one `- item` line per element at the current
indent, items recursing at `indent + 2` with their leading whitespace
trimmed; a non-empty object renders one line per key, a field whose value
is a non-empty container opening a nested block at `indent + 2`. -/
def jsonToYaml : Json → Nat → String
| .null, _ => "null"
| .bool b, _ => toString b
| .num n, _ => toString n
| .str s, _ =>
  if yamlNeedsQuote s then "\"" ++ s.replace "\"" "\\\"" ++ "\"" else s
| .arr items, indent =>
  if items.isEmpty then "[]"
  else String.intercalate "\n" (jsonToYamlItems items indent)
| .obj fields, indent =>
  if fields.isEmpty then "\x7b\x7d"
  else String.intercalate "\n" (jsonToYamlFields fields indent)

/-- The `- item` lines of a non-empty array. -/
def jsonToYamlItems : List Json → Nat → List String
| [], _ => []
| x :: xs, indent =>
  (spacesN indent ++ "- " ++ jsTrimStart (jsonToYaml x (indent + 2)))
    :: jsonToYamlItems xs indent

/-- The per-key lines of a non-empty object. -/
def jsonToYamlFields : List (String × Json) → Nat → List String
| [], _ => []
| (key, value) :: fs, indent =>
  (match value with
   | .obj gs =>
     if gs.isEmpty then spacesN indent ++ key ++ ": " ++ jsonToYaml (Json.obj gs) (indent + 2)
     else spacesN indent ++ key ++ ":\n" ++ jsonToYaml (Json.obj gs) (indent + 2)
   | .arr xs =>
     if xs.isEmpty then spacesN indent ++ key ++ ": " ++ jsonToYaml (Json.arr xs) (indent + 2)
     else spacesN indent ++ key ++ ":\n" ++ jsonToYaml (Json.arr xs) (indent + 2)
   | v => spacesN indent ++ key ++ ": " ++ jsonToYaml v (indent + 2))
    :: jsonToYamlFields fs indent

end

/-- The module-level singleton slot `keeneticControlInstance`. -/
def SingletonState : Type := Option KeeneticControl

/-- `getKeeneticControl(options?)` acting on the singleton slot: create on
first call that supplies options; throw the configuration-missing error
when uninitialized and no options are supplied; otherwise return the
existing instance untouched. -/
def getKeeneticControl (options : Option KeeneticControlOptions)
    (st : SingletonState) : Except String KeeneticControl × SingletonState :=
  match st, options with
  | none, some o =>
    let c := mkKeeneticControl o
    (.ok c, some c)
  | none, none =>
    (.error "KeeneticControl not initialized. Provide options for first call.", none)
  | some c, _ => (.ok c, some c)

/-- `initKeeneticControl(options)`: unconditionally replace the singleton
slot with a freshly constructed client. -/
def initKeeneticControl (options : KeeneticControlOptions)
    (_st : SingletonState) : KeeneticControl × SingletonState :=
  let c := mkKeeneticControl options
  (c, some c)

/-- Modelled from the spec (§3 Connection Descriptor): the scheme of the
base URL, "https" unless `secure === false`. -/
def specScheme (credentials : KeeneticCredentials) : String :=
  if credentials.secure = some false then "http" else "https"

/-- Modelled from the spec (§3, amended): the port suffix of the base URL,
present exactly for a supplied non-zero port. -/
def specPortSuffix (credentials : KeeneticCredentials) : String :=
  match credentials.port with
  | some p => if p = 0 then "" else ":" ++ Nat.repr p
  | none => ""

/-- Modelled from the spec (§3, amended): `scheme://host[:port]`. -/
def specBaseUrl (credentials : KeeneticCredentials) : String :=
  specScheme credentials ++ "://" ++ credentials.host ++ specPortSuffix credentials

/-- Appending after a fixed left part is injective. -/
theorem string_append_cancel_left (p a b : String) (h : p ++ a = p ++ b) : a = b := by
  apply String.ext
  have h2 := congrArg String.data h
  simp only [String.data_append] at h2
  exact List.append_cancel_left h2

/-- Appending a fixed right part is injective. -/
theorem string_append_cancel_right (a b q : String) (h : a ++ q = b ++ q) : a = b := by
  apply String.ext
  have h2 := congrArg String.data h
  simp only [String.data_append] at h2
  exact List.append_cancel_right h2

/-- Reading a decimal digit run back into its value. -/
def decCharsVal (ds : List Char) : Nat :=
  ds.foldl (fun acc c => acc * 10 + (c.toNat - 48)) 0

/-- The code point of a decimal digit character. -/
theorem digitChar_toNat (m : Nat) (hm : m < 10) : (Nat.digitChar m).toNat = 48 + m := by
  interval_cases m <;> decide

/-- The core decimal renderer prepends a digit run to its accumulator,
and the prepended run reads back (by `decCharsVal`) as the rendered
number, provided the fuel exceeds the number. -/
theorem toDigitsCore_val : ∀ (fuel n : Nat) (acc : List Char), n < fuel →
    ∃ run : List Char,
      Nat.toDigitsCore 10 fuel n acc = run ++ acc ∧ decCharsVal run = n := by
  intro fuel
  induction fuel with
  | zero => intro n acc h; omega
  | succ fuel ih =>
    intro n acc hn
    simp only [Nat.toDigitsCore]
    by_cases h10 : n / 10 = 0
    · refine ⟨[Nat.digitChar (n % 10)], by simp [h10], ?_⟩
      have hlt : n % 10 < 10 := Nat.mod_lt _ (by omega)
      simp only [decCharsVal, List.foldl_cons, List.foldl_nil, digitChar_toNat _ hlt]
      omega
    · rw [if_neg h10]
      have hfuel : n / 10 < fuel := by
        have h1 : n / 10 < n := Nat.div_lt_self (by omega) (by omega)
        omega
      obtain ⟨run, hrun, hval⟩ := ih (n / 10) (Nat.digitChar (n % 10) :: acc) hfuel
      refine ⟨run ++ [Nat.digitChar (n % 10)], by rw [hrun, List.append_assoc]; rfl, ?_⟩
      have hlt : n % 10 < 10 := Nat.mod_lt _ (by omega)
      simp only [decCharsVal, List.foldl_append, List.foldl_cons, List.foldl_nil] at hval ⊢
      rw [hval, digitChar_toNat _ hlt]
      omega

/-- The decimal rendering of a natural number is injective. -/
theorem natRepr_injective (a b : Nat) (h : Nat.repr a = Nat.repr b) : a = b := by
  obtain ⟨runa, ha, hva⟩ := toDigitsCore_val (a + 1) a [] (Nat.lt_succ_self a)
  obtain ⟨runb, hb, hvb⟩ := toDigitsCore_val (b + 1) b [] (Nat.lt_succ_self b)
  unfold Nat.repr Nat.toDigits at h
  rw [ha, hb, List.append_nil, List.append_nil] at h
  have hdata := congrArg String.data h
  simp only [List.asString] at hdata
  rw [← hva, ← hvb, hdata]

/-- One-step unfolding of the pipeline recursion. -/
theorem requestCore_eq (t : Transport) (req : Req) (attempt retries : Nat) :
    requestCore t req attempt retries =
      match attemptResult (t req attempt) with
      | .ok j => (.ok j, 1)
      | .error e =>
        match retries with
        | 0 => (.error e, 1)
        | r + 1 =>
          let rest := requestCore t req (attempt + 1) r
          (rest.1, rest.2 + 1) := by
  rw [requestCore]

/-- A non-failing outcome is a parsed success. -/
theorem outcomeFails_false (o : Outcome) (h : outcomeFails o = false) :
    ∃ j, attemptResult o = .ok j := by
  unfold outcomeFails at h
  cases ha : attemptResult o with
  | ok j => exact ⟨j, rfl⟩
  | error e => rw [ha] at h; simp at h

/-- A failing outcome is an error of the attempt. -/
theorem outcomeFails_true (o : Outcome) (h : outcomeFails o = true) :
    ∃ e, attemptResult o = .error e := by
  unfold outcomeFails at h
  cases ha : attemptResult o with
  | ok j => rw [ha] at h; simp at h
  | error e => exact ⟨e, rfl⟩

/-- When the transport fails on the first `k` attempts from `attempt` and
succeeds on the next, and at least `k` retries remain, the pipeline
resolves after exactly `k + 1` invocations. -/
theorem requestCore_succeeds (t : Transport) (req : Req) :
    ∀ (k attempt retries : Nat),
      (∀ i, i < k → outcomeFails (t req (attempt + i)) = true) →
      outcomeFails (t req (attempt + k)) = false →
      k ≤ retries →
      (requestCore t req attempt retries).1.isOk = true ∧
        (requestCore t req attempt retries).2 = k + 1 := by
  intro k
  induction k with
  | zero =>
    intro attempt retries _ hsucc _
    rw [Nat.add_zero] at hsucc
    obtain ⟨j, hj⟩ := outcomeFails_false _ hsucc
    rw [requestCore_eq, hj]
    exact ⟨rfl, rfl⟩
  | succ k ih =>
    intro attempt retries hfail hsucc hle
    obtain ⟨e, he⟩ := outcomeFails_true _ (by simpa using hfail 0 (Nat.succ_pos k))
    rcases retries with _ | r
    · omega
    rw [requestCore_eq, he]
    have hfail' : ∀ i, i < k → outcomeFails (t req (attempt + 1 + i)) = true := by
      intro i hi
      have hx : attempt + 1 + i = attempt + (i + 1) := by omega
      rw [hx]
      exact hfail (i + 1) (by omega)
    have hsucc' : outcomeFails (t req (attempt + 1 + k)) = false := by
      have hx : attempt + 1 + k = attempt + (k + 1) := by omega
      rw [hx]; exact hsucc
    obtain ⟨hok, hcount⟩ := ih (attempt + 1) r hfail' hsucc' (by omega)
    exact ⟨hok, by simp only [hcount]⟩

/-- When the transport fails on at least `retries + 1` attempts from
`attempt`, the pipeline rejects after exactly `retries + 1` invocations. -/
theorem requestCore_fails (t : Transport) (req : Req) :
    ∀ (retries attempt k : Nat),
      (∀ i, i < k → outcomeFails (t req (attempt + i)) = true) →
      retries < k →
      (requestCore t req attempt retries).1.isOk = false ∧
        (requestCore t req attempt retries).2 = retries + 1 := by
  intro retries
  induction retries with
  | zero =>
    intro attempt k hfail hlt
    obtain ⟨e, he⟩ := outcomeFails_true _ (by simpa using hfail 0 (by omega))
    rw [requestCore_eq, he]
    exact ⟨rfl, rfl⟩
  | succ r ih =>
    intro attempt k hfail hlt
    obtain ⟨e, he⟩ := outcomeFails_true _ (by simpa using hfail 0 (by omega))
    rw [requestCore_eq, he]
    have hfail' : ∀ i, i < k - 1 → outcomeFails (t req (attempt + 1 + i)) = true := by
      intro i hi
      have hx : attempt + 1 + i = attempt + (i + 1) := by omega
      rw [hx]
      exact hfail (i + 1) (by omega)
    obtain ⟨hok, hcount⟩ := ih (attempt + 1) (k - 1) hfail' (by omega)
    exact ⟨hok, by simp only [hcount]⟩

/-- Folding the lookup step from any start: the list's own last assignment
wins, the start standing when the list never assigns the key. -/
theorem headerLookup_foldl (name : String) :
    ∀ (l : List (String × String)) (init : Option String),
      l.foldl (fun acc p => if p.1 = name then some p.2 else acc) init
        = match headerLookup l name with
          | some v => some v
          | none => init := by
  intro l
  induction l with
  | nil => intro init; rfl
  | cons p rest ih =>
    intro init
    simp only [headerLookup, List.foldl_cons]
    rw [ih, ih (if p.1 = name then some p.2 else none)]
    cases hr : headerLookup rest name with
    | some v => rfl
    | none =>
      by_cases hp : p.1 = name
      · simp [hp]
      · simp [hp]

/-- Lookup over concatenated assignment lists: the later list wins. -/
theorem headerLookup_append (a b : List (String × String)) (name : String) :
    headerLookup (a ++ b) name
      = match headerLookup b name with
        | some v => some v
        | none => headerLookup a name := by
  unfold headerLookup
  rw [List.foldl_append]
  exact headerLookup_foldl name b _

/-- A transport that fails (network error) on the first two attempts of
any request and then answers 200 with a JSON body. -/
def failTwiceTransport : Transport := fun _ attempt =>
  if attempt < 2 then .netErr else .resp 200 (some (Json.str "ok"))

/-- A transport that always answers 200 with a body that does not parse
as JSON. -/
def badBodyTransport : Transport := fun _ _ => .resp 200 none

/-- A transport that always fails at the network level. -/
def alwaysFailTransport : Transport := fun _ _ => .netErr

/-- A transport that always answers 200, echoing the request path as its
JSON body. -/
def pathEchoTransport : Transport := fun req _ => .resp 200 (some (Json.str req.path))

/-- C1: against a transport that fails exactly `k` times and then succeeds,
`request` with `retryCount = n ≥ k` resolves and invokes the transport
exactly `k + 1` times, and with `n < k` it rejects after exactly `n + 1`
invocations. -/
theorem keenetic_retry_contract (t : Transport) (req : Req) (k n : Nat)
    (hfail : ∀ i, i < k → outcomeFails (t req i) = true)
    (hsucc : outcomeFails (t req k) = false) :
    (k ≤ n → (request t req n).1.isOk = true ∧ (request t req n).2 = k + 1)
    ∧ (n < k → (request t req n).1.isOk = false ∧ (request t req n).2 = n + 1) := by
  constructor
  · intro hle
    exact requestCore_succeeds t req k 0 n (by simpa using hfail) (by simpa using hsucc) hle
  · intro hlt
    exact requestCore_fails t req n 0 k (by simpa using hfail) hlt

/-- C1 witness: the contract evaluated on a transport failing exactly
twice, once with three retries (success after 3 invocations) and once
with one retry (failure after 2 invocations). -/
theorem keenetic_retry_contract_witness :
    ((request failTwiceTransport testConnectionReq 3).1.isOk = true
      ∧ (request failTwiceTransport testConnectionReq 3).2 = 3)
    ∧ ((request failTwiceTransport testConnectionReq 1).1.isOk = false
      ∧ (request failTwiceTransport testConnectionReq 1).2 = 2) := by
  have hfail : ∀ i, i < 2 → outcomeFails (failTwiceTransport testConnectionReq i) = true := by
    intro i hi
    interval_cases i <;> decide
  have hsucc : outcomeFails (failTwiceTransport testConnectionReq 2) = false := by decide
  exact ⟨(keenetic_retry_contract failTwiceTransport testConnectionReq 2 3 hfail hsucc).1
           (by omega),
         (keenetic_retry_contract failTwiceTransport testConnectionReq 2 1 hfail hsucc).2
           (by omega)⟩

/-- C2 counterexample: a response with status 200 (a successful 2xx) whose
body does not parse as JSON lands in the `catch` block, so with one retry
remaining the transport is invoked a second time — the pipeline does
retry after a 2xx when `response.json()` fails. -/
theorem keenetic_no_retry_counterexample :
    badBodyTransport testConnectionReq 0 = .resp 200 none
    ∧ (200 ≤ 200 ∧ 200 < 300)
    ∧ (request badBodyTransport testConnectionReq 1).2 = 2 := by
  refine ⟨rfl, by omega, by decide⟩

/-- C2 amended: when the first response has a 2xx status and a body that
parses as JSON, `request` returns that parsed body at once — one transport
invocation, no retry — whatever the retry budget. -/
theorem keenetic_no_retry_on_2xx (t : Transport) (req : Req) (n : Nat)
    (status : Nat) (j : Json)
    (h0 : t req 0 = .resp status (some j))
    (h200 : 200 ≤ status) (h300 : status < 300) :
    request t req n = (.ok j, 1) := by
  have ha : attemptResult (Outcome.resp status (some j)) = .ok j := by
    simp only [attemptResult]
    rw [if_pos ⟨h200, h300⟩]
  unfold request
  rw [requestCore_eq, h0, ha]

/-- C2 witness: the amended theorem evaluated on a transport answering
200 with a parsed JSON body on its first attempt. -/
theorem keenetic_no_retry_on_2xx_witness :
    request pathEchoTransport getSystemInfoReq 3
      = (.ok (Json.str "/rci/show/system"), 1) := by
  exact keenetic_no_retry_on_2xx pathEchoTransport getSystemInfoReq 3 200
    (Json.str "/rci/show/system") rfl (by omega) (by omega)

/-- C3 counterexample: against a transport whose every response is a 2xx
(status 200) with a body that does not parse as JSON, `testConnection`
returns `false` — so "true whenever the transport responds 2xx,
regardless of payload content" fails on non-JSON payloads. -/
theorem keenetic_probe_counterexample :
    badBodyTransport testConnectionReq 0 = .resp 200 none
    ∧ (testConnection badBodyTransport 3).1 = false := by
  exact ⟨rfl, by decide⟩

/-- C3 amended: the probe issues GET `/rci/system/status`; it returns
`true` (after one invocation) whenever the transport's first response has
a 2xx status and a JSON-parsing body, whatever that JSON is; and against
a persistently failing transport it returns `false` — not an exception —
after the configured retries, the transport invoked `retryCount + 1`
times. -/
theorem keenetic_probe_contract :
    testConnectionReq = ⟨"GET", "/rci/system/status", none⟩
    ∧ (∀ (t : Transport) (retryCount status : Nat) (j : Json),
        t testConnectionReq 0 = .resp status (some j) →
        200 ≤ status → status < 300 →
        testConnection t retryCount = (true, 1))
    ∧ (∀ (t : Transport) (retryCount : Nat),
        (∀ i, outcomeFails (t testConnectionReq i) = true) →
        testConnection t retryCount = (false, retryCount + 1)) := by
  refine ⟨rfl, ?_, ?_⟩
  · intro t retryCount status j h0 h200 h300
    unfold testConnection
    rw [keenetic_no_retry_on_2xx t testConnectionReq retryCount status j h0 h200 h300]
  · intro t retryCount hfail
    obtain ⟨hok, hcount⟩ := requestCore_fails t testConnectionReq retryCount 0 (retryCount + 1)
      (fun i _ => by simpa using hfail i) (by omega)
    unfold testConnection request
    cases hres : (requestCore t testConnectionReq 0 retryCount).1 with
    | ok j => rw [hres] at hok; simp [Except.isOk, Except.toBool] at hok
    | error e => simp only [hres, hcount]

/-- C3 witness: the probe contract evaluated on a 200-with-JSON transport
and on an always-failing transport with the default retry count. -/
theorem keenetic_probe_contract_witness :
    testConnection pathEchoTransport 3 = (true, 1)
    ∧ testConnection alwaysFailTransport 3 = (false, 4) := by
  exact ⟨keenetic_probe_contract.2.1 pathEchoTransport 3 200
           (Json.str "/rci/system/status") rfl (by omega) (by omega),
         keenetic_probe_contract.2.2 alwaysFailTransport 3 (fun _ => rfl)⟩

/-- The nine pipeline requests the aggregate export issues. -/
def fullConfigurationReqs : List Req :=
  [getSystemInfoReq, getInterfacesReq, getWifiNetworksReq, getConnectedClientsReq,
   getVpnConnectionsReq, getUsbDevicesReq, getFirewallRulesReq, getDnsSettingsReq,
   getDhcpServersReq]

/-- C4: the aggregate export is all-or-nothing over its nine domain reads.
Producing a configuration forces every one of the nine reads to have
succeeded, with the composite carrying exactly their nine results (and the
hardcoded firewall placeholders); when all nine succeed the composite of
the nine results is returned; and whenever any one of the nine reads
fails, the aggregate as a whole fails — no partial object. -/
theorem keenetic_aggregate_all_or_nothing (t : Transport) (rc : Nat) :
    (∀ cfg, getFullConfiguration t rc = .ok cfg →
      (request t getSystemInfoReq rc).1 = .ok cfg.system
      ∧ (request t getInterfacesReq rc).1 = .ok cfg.interfaces
      ∧ (request t getWifiNetworksReq rc).1 = .ok cfg.wifi
      ∧ (request t getConnectedClientsReq rc).1 = .ok cfg.clients
      ∧ (request t getVpnConnectionsReq rc).1 = .ok cfg.vpn
      ∧ (request t getUsbDevicesReq rc).1 = .ok cfg.usb
      ∧ (request t getFirewallRulesReq rc).1 = .ok cfg.firewall.rules
      ∧ cfg.firewall.enabled = true
      ∧ cfg.firewall.defaultPolicy = "drop"
      ∧ (request t getDnsSettingsReq rc).1 = .ok cfg.dns
      ∧ (request t getDhcpServersReq rc).1 = .ok cfg.dhcp)
    ∧ (∀ s i w c v u f d h,
        (request t getSystemInfoReq rc).1 = .ok s →
        (request t getInterfacesReq rc).1 = .ok i →
        (request t getWifiNetworksReq rc).1 = .ok w →
        (request t getConnectedClientsReq rc).1 = .ok c →
        (request t getVpnConnectionsReq rc).1 = .ok v →
        (request t getUsbDevicesReq rc).1 = .ok u →
        (request t getFirewallRulesReq rc).1 = .ok f →
        (request t getDnsSettingsReq rc).1 = .ok d →
        (request t getDhcpServersReq rc).1 = .ok h →
        getFullConfiguration t rc
          = .ok ⟨s, i, w, c, v, u, ⟨true, "drop", f⟩, d, h⟩)
    ∧ (∀ r ∈ fullConfigurationReqs, (request t r rc).1.isOk = false →
        (getFullConfiguration t rc).isOk = false) := by
  have hinv : ∀ cfg, getFullConfiguration t rc = .ok cfg →
      (request t getSystemInfoReq rc).1 = .ok cfg.system
      ∧ (request t getInterfacesReq rc).1 = .ok cfg.interfaces
      ∧ (request t getWifiNetworksReq rc).1 = .ok cfg.wifi
      ∧ (request t getConnectedClientsReq rc).1 = .ok cfg.clients
      ∧ (request t getVpnConnectionsReq rc).1 = .ok cfg.vpn
      ∧ (request t getUsbDevicesReq rc).1 = .ok cfg.usb
      ∧ (request t getFirewallRulesReq rc).1 = .ok cfg.firewall.rules
      ∧ cfg.firewall.enabled = true
      ∧ cfg.firewall.defaultPolicy = "drop"
      ∧ (request t getDnsSettingsReq rc).1 = .ok cfg.dns
      ∧ (request t getDhcpServersReq rc).1 = .ok cfg.dhcp := by
    intro cfg hcfg
    unfold getFullConfiguration at hcfg
    simp only [bind, Except.bind] at hcfg
    cases h1 : (request t getSystemInfoReq rc).1 with
    | error e => simp only [h1] at hcfg; exact absurd hcfg (by simp)
    | ok s =>
    simp only [h1] at hcfg
    cases h2 : (request t getInterfacesReq rc).1 with
    | error e => simp only [h2] at hcfg; exact absurd hcfg (by simp)
    | ok i =>
    simp only [h2] at hcfg
    cases h3 : (request t getWifiNetworksReq rc).1 with
    | error e => simp only [h3] at hcfg; exact absurd hcfg (by simp)
    | ok w =>
    simp only [h3] at hcfg
    cases h4 : (request t getConnectedClientsReq rc).1 with
    | error e => simp only [h4] at hcfg; exact absurd hcfg (by simp)
    | ok c =>
    simp only [h4] at hcfg
    cases h5 : (request t getVpnConnectionsReq rc).1 with
    | error e => simp only [h5] at hcfg; exact absurd hcfg (by simp)
    | ok v =>
    simp only [h5] at hcfg
    cases h6 : (request t getUsbDevicesReq rc).1 with
    | error e => simp only [h6] at hcfg; exact absurd hcfg (by simp)
    | ok u =>
    simp only [h6] at hcfg
    cases h7 : (request t getFirewallRulesReq rc).1 with
    | error e => simp only [h7] at hcfg; exact absurd hcfg (by simp)
    | ok f =>
    simp only [h7] at hcfg
    cases h8 : (request t getDnsSettingsReq rc).1 with
    | error e => simp only [h8] at hcfg; exact absurd hcfg (by simp)
    | ok d =>
    simp only [h8] at hcfg
    cases h9 : (request t getDhcpServersReq rc).1 with
    | error e => simp only [h9] at hcfg; exact absurd hcfg (by simp)
    | ok h =>
    simp only [h9, pure, Except.pure, Except.ok.injEq] at hcfg
    subst hcfg
    exact ⟨rfl, rfl, rfl, rfl, rfl, rfl, rfl, rfl, rfl, rfl, rfl⟩
  refine ⟨hinv, ?_, ?_⟩
  · intro s i w c v u f d h h1 h2 h3 h4 h5 h6 h7 h8 h9
    unfold getFullConfiguration
    simp only [bind, Except.bind, h1, h2, h3, h4, h5, h6, h7, h8, h9, pure, Except.pure]
  · intro r hmem hbad
    cases hg : getFullConfiguration t rc with
    | error e => rfl
    | ok cfg =>
      exfalso
      obtain ⟨g1, g2, g3, g4, g5, g6, g7, -, -, g8, g9⟩ := hinv cfg hg
      simp only [fullConfigurationReqs, List.mem_cons, List.not_mem_nil, or_false] at hmem
      rcases hmem with rfl | rfl | rfl | rfl | rfl | rfl | rfl | rfl | rfl <;>
        first
        | (rw [g1] at hbad; simp [Except.isOk, Except.toBool] at hbad)
        | (rw [g2] at hbad; simp [Except.isOk, Except.toBool] at hbad)
        | (rw [g3] at hbad; simp [Except.isOk, Except.toBool] at hbad)
        | (rw [g4] at hbad; simp [Except.isOk, Except.toBool] at hbad)
        | (rw [g5] at hbad; simp [Except.isOk, Except.toBool] at hbad)
        | (rw [g6] at hbad; simp [Except.isOk, Except.toBool] at hbad)
        | (rw [g7] at hbad; simp [Except.isOk, Except.toBool] at hbad)
        | (rw [g8] at hbad; simp [Except.isOk, Except.toBool] at hbad)
        | (rw [g9] at hbad; simp [Except.isOk, Except.toBool] at hbad)

/-- C4 witness: the aggregate evaluated against a transport answering
every read with 200 and the request path as body: the composite carries
all nine results. -/
theorem keenetic_aggregate_witness :
    getFullConfiguration pathEchoTransport 3
      = .ok ⟨Json.str "/rci/show/system", Json.str "/rci/show/interface",
             Json.str "/rci/show/interface/wireless", Json.str "/rci/show/ip/hotspot",
             Json.str "/rci/show/vpn", Json.str "/rci/show/usb",
             ⟨true, "drop", Json.str "/rci/show/ip/firewall"⟩,
             Json.str "/rci/show/ip/dns", Json.str "/rci/show/ip/dhcp/server"⟩ := by
  exact (keenetic_aggregate_all_or_nothing pathEchoTransport 3).2.1
    _ _ _ _ _ _ _ _ _ rfl rfl rfl rfl rfl rfl rfl rfl rfl

/-- C5: every domain operation's method and path equal the table entries
(the `/rci/...` strings of §4.2); path templating is injective in its key
parameter (distinct SSIDs, MAC addresses, rule ids, interface names and
VPN types give distinct paths); and `configureWifiNetwork("MyWifi",
(enabled: false))` issues `PATCH /rci/wireless/ssid/MyWifi` with body
`\x7b"enabled":false\x7d`. -/
theorem keenetic_endpoint_table :
    (testConnectionReq.method = "GET" ∧ testConnectionReq.path = "/rci/system/status")
    ∧ (getSystemInfoReq.method = "GET" ∧ getSystemInfoReq.path = "/rci/show/system")
    ∧ (getInterfacesReq.method = "GET" ∧ getInterfacesReq.path = "/rci/show/interface")
    ∧ (∀ n, (getInterfaceReq n).method = "GET"
        ∧ (getInterfaceReq n).path = "/rci/show/interface/" ++ n)
    ∧ (∀ n c, (configureInterfaceReq n c).method = "PATCH"
        ∧ (configureInterfaceReq n c).path = "/rci/interface/" ++ n)
    ∧ (getWifiNetworksReq.method = "GET"
        ∧ getWifiNetworksReq.path = "/rci/show/interface/wireless")
    ∧ (∀ s c, (configureWifiNetworkReq s c).method = "PATCH"
        ∧ (configureWifiNetworkReq s c).path = "/rci/wireless/ssid/" ++ s)
    ∧ (∀ c, (createWifiNetworkReq c).method = "POST"
        ∧ (createWifiNetworkReq c).path = "/rci/wireless/ssid")
    ∧ (∀ s, (deleteWifiNetworkReq s).method = "DELETE"
        ∧ (deleteWifiNetworkReq s).path = "/rci/wireless/ssid/" ++ s)
    ∧ (getConnectedClientsReq.method = "GET"
        ∧ getConnectedClientsReq.path = "/rci/show/ip/hotspot")
    ∧ (∀ m, (blockClientReq m).method = "POST"
        ∧ (blockClientReq m).path = "/rci/ip/hotspot/mac/" ++ m ++ "/block")
    ∧ (∀ m, (unblockClientReq m).method = "POST"
        ∧ (unblockClientReq m).path = "/rci/ip/hotspot/mac/" ++ m ++ "/unblock")
    ∧ (getVpnConnectionsReq.method = "GET" ∧ getVpnConnectionsReq.path = "/rci/show/vpn")
    ∧ (∀ ty c, (configureVpnReq ty c).method = "PATCH"
        ∧ (configureVpnReq ty c).path = "/rci/vpn/" ++ ty)
    ∧ (getFirewallRulesReq.method = "GET"
        ∧ getFirewallRulesReq.path = "/rci/show/ip/firewall")
    ∧ (∀ r, (addFirewallRuleReq r).method = "POST"
        ∧ (addFirewallRuleReq r).path = "/rci/ip/firewall/rule")
    ∧ (∀ i r, (updateFirewallRuleReq i r).method = "PATCH"
        ∧ (updateFirewallRuleReq i r).path = "/rci/ip/firewall/rule/" ++ Nat.repr i)
    ∧ (∀ i, (deleteFirewallRuleReq i).method = "DELETE"
        ∧ (deleteFirewallRuleReq i).path = "/rci/ip/firewall/rule/" ++ Nat.repr i)
    ∧ (getDnsSettingsReq.method = "GET" ∧ getDnsSettingsReq.path = "/rci/show/ip/dns")
    ∧ (∀ c, (configureDnsReq c).method = "PATCH" ∧ (configureDnsReq c).path = "/rci/ip/dns")
    ∧ (getDhcpServersReq.method = "GET"
        ∧ getDhcpServersReq.path = "/rci/show/ip/dhcp/server")
    ∧ (∀ n c, (configureDhcpServerReq n c).method = "PATCH"
        ∧ (configureDhcpServerReq n c).path = "/rci/ip/dhcp/server/" ++ n)
    ∧ (getUsbDevicesReq.method = "GET" ∧ getUsbDevicesReq.path = "/rci/show/usb")
    ∧ (∀ cm, (executeCliCommandReq cm).method = "POST"
        ∧ (executeCliCommandReq cm).path = "/rci/cli/execute")
    ∧ (∀ cm, (executeSshCommandReq cm).method = "POST"
        ∧ (executeSshCommandReq cm).path = "/rci/ssh/execute")
    ∧ (rebootReq.method = "POST" ∧ rebootReq.path = "/rci/system/reboot")
    ∧ backupConfigurationPath = "/rci/system/configuration/export"
    ∧ restoreConfigurationPath = "/rci/system/configuration/import"
    ∧ updateFirmwarePath = "/rci/system/firmware/update"
    ∧ (∀ s₁ s₂ c₁ c₂, (configureWifiNetworkReq s₁ c₁).path = (configureWifiNetworkReq s₂ c₂).path → s₁ = s₂)
    ∧ (∀ s₁ s₂, (deleteWifiNetworkReq s₁).path = (deleteWifiNetworkReq s₂).path → s₁ = s₂)
    ∧ (∀ m₁ m₂, (blockClientReq m₁).path = (blockClientReq m₂).path → m₁ = m₂)
    ∧ (∀ m₁ m₂, (unblockClientReq m₁).path = (unblockClientReq m₂).path → m₁ = m₂)
    ∧ (∀ i₁ i₂ r₁ r₂, (updateFirewallRuleReq i₁ r₁).path = (updateFirewallRuleReq i₂ r₂).path → i₁ = i₂)
    ∧ (∀ i₁ i₂, (deleteFirewallRuleReq i₁).path = (deleteFirewallRuleReq i₂).path → i₁ = i₂)
    ∧ (∀ n₁ n₂, (getInterfaceReq n₁).path = (getInterfaceReq n₂).path → n₁ = n₂)
    ∧ (∀ n₁ n₂ c₁ c₂, (configureInterfaceReq n₁ c₁).path = (configureInterfaceReq n₂ c₂).path → n₁ = n₂)
    ∧ (∀ n₁ n₂ c₁ c₂, (configureDhcpServerReq n₁ c₁).path = (configureDhcpServerReq n₂ c₂).path → n₁ = n₂)
    ∧ (∀ t₁ t₂ c₁ c₂, (configureVpnReq t₁ c₁).path = (configureVpnReq t₂ c₂).path → t₁ = t₂)
    ∧ configureWifiNetworkReq "MyWifi" (Json.obj [("enabled", Json.bool false)])
        = ⟨"PATCH", "/rci/wireless/ssid/MyWifi", some "\x7b\"enabled\":false\x7d"⟩ := by
  refine ⟨⟨rfl, rfl⟩, ⟨rfl, rfl⟩, ⟨rfl, rfl⟩, fun n => ⟨rfl, rfl⟩, fun n c => ⟨rfl, rfl⟩,
    ⟨rfl, rfl⟩, fun s c => ⟨rfl, rfl⟩, fun c => ⟨rfl, rfl⟩, fun s => ⟨rfl, rfl⟩,
    ⟨rfl, rfl⟩, fun m => ⟨rfl, rfl⟩, fun m => ⟨rfl, rfl⟩, ⟨rfl, rfl⟩,
    fun ty c => ⟨rfl, rfl⟩, ⟨rfl, rfl⟩, fun r => ⟨rfl, rfl⟩, fun i r => ⟨rfl, rfl⟩,
    fun i => ⟨rfl, rfl⟩, ⟨rfl, rfl⟩, fun c => ⟨rfl, rfl⟩, ⟨rfl, rfl⟩,
    fun n c => ⟨rfl, rfl⟩, ⟨rfl, rfl⟩, fun cm => ⟨rfl, rfl⟩, fun cm => ⟨rfl, rfl⟩,
    ⟨rfl, rfl⟩, rfl, rfl, rfl, ?_, ?_, ?_, ?_, ?_, ?_, ?_, ?_, ?_, ?_, by decide⟩
  · intro s₁ s₂ c₁ c₂ h
    exact string_append_cancel_left _ _ _ h
  · intro s₁ s₂ h
    exact string_append_cancel_left _ _ _ h
  · intro m₁ m₂ h
    exact string_append_cancel_left _ _ _ (string_append_cancel_right _ _ _ h)
  · intro m₁ m₂ h
    exact string_append_cancel_left _ _ _ (string_append_cancel_right _ _ _ h)
  · intro i₁ i₂ r₁ r₂ h
    exact natRepr_injective _ _ (string_append_cancel_left _ _ _ h)
  · intro i₁ i₂ h
    exact natRepr_injective _ _ (string_append_cancel_left _ _ _ h)
  · intro n₁ n₂ h
    exact string_append_cancel_left _ _ _ h
  · intro n₁ n₂ c₁ c₂ h
    exact string_append_cancel_left _ _ _ h
  · intro n₁ n₂ c₁ c₂ h
    exact string_append_cancel_left _ _ _ h
  · intro t₁ t₂ c₁ c₂ h
    exact string_append_cancel_left _ _ _ h

/-- C5 witness: the injectivity conjuncts applied at concrete key
parameters, their path-equality hypotheses discharged by `rfl`. -/
theorem keenetic_endpoint_table_witness :
    ("MyWifi" : String) = "MyWifi" ∧ (7 : Nat) = 7 := by
  obtain ⟨-, -, -, -, -, -, -, -, -, -, -, -, -, -, -, -, -, -, -, -, -, -, -, -, -, -, -, -, -,
    hssid, -, -, -, hupd, -, -, -, -, -, -⟩ := keenetic_endpoint_table
  exact ⟨hssid "MyWifi" "MyWifi" Json.null Json.null rfl,
         hupd 7 7 Json.null Json.null rfl⟩

/-- C6: the singleton accessor: `get` with no prior instance and no
options throws the configuration-missing error; `get` with options and no
prior instance constructs and stores the client (first call wins); once an
instance exists every later `get` returns exactly it, whatever options are
passed, leaving the slot unchanged; and `init` unconditionally replaces
the slot with a client built from its options. -/
theorem keenetic_singleton_contract (o : KeeneticControlOptions)
    (opts : Option KeeneticControlOptions) (c : KeeneticControl)
    (st : SingletonState) :
    getKeeneticControl none none
        = (.error "KeeneticControl not initialized. Provide options for first call.", none)
    ∧ getKeeneticControl (some o) none
        = (.ok (mkKeeneticControl o), some (mkKeeneticControl o))
    ∧ getKeeneticControl opts (some c) = (.ok c, some c)
    ∧ initKeeneticControl o st = (mkKeeneticControl o, some (mkKeeneticControl o)) := by
  refine ⟨rfl, rfl, ?_, rfl⟩
  cases opts with
  | none => rfl
  | some o2 => rfl

/-- C7: the YAML transcription maps `(a: 1, b: [1, 2], c: empty-object)`
to `a: 1`, then `b:` with `- 1` and `- 2` each indented two spaces, then
`c:` with the empty-object inline form; in general empty arrays render as
`[]`, empty objects as the brace pair, and a non-empty container under a
key opens a nested block rendered at `indent + 2`, a non-empty array
putting each item on a `- ` line at the current indent with the item
rendered at `indent + 2`. -/
theorem keenetic_yaml_transcription :
    jsonToYaml (Json.obj [("a", Json.num 1), ("b", Json.arr [Json.num 1, Json.num 2]),
        ("c", Json.obj [])]) 0
      = "a: 1\nb:\n  - 1\n  - 2\nc: \x7b\x7d"
    ∧ (∀ indent, jsonToYaml (Json.arr []) indent = "[]")
    ∧ (∀ indent, jsonToYaml (Json.obj []) indent = "\x7b\x7d")
    ∧ (∀ key g gs fs indent,
        jsonToYamlFields ((key, Json.obj (g :: gs)) :: fs) indent
          = (spacesN indent ++ key ++ ":\n" ++ jsonToYaml (Json.obj (g :: gs)) (indent + 2))
              :: jsonToYamlFields fs indent)
    ∧ (∀ key x xs fs indent,
        jsonToYamlFields ((key, Json.arr (x :: xs)) :: fs) indent
          = (spacesN indent ++ key ++ ":\n" ++ jsonToYaml (Json.arr (x :: xs)) (indent + 2))
              :: jsonToYamlFields fs indent)
    ∧ (∀ x xs indent, jsonToYaml (Json.arr (x :: xs)) indent
        = String.intercalate "\n" (jsonToYamlItems (x :: xs) indent))
    ∧ (∀ x xs indent, jsonToYamlItems (x :: xs) indent
        = (spacesN indent ++ "- " ++ jsTrimStart (jsonToYaml x (indent + 2)))
            :: jsonToYamlItems xs indent) := by
  refine ⟨by decide, fun indent => rfl, fun indent => rfl, ?_, ?_, ?_, ?_⟩
  · intro key g gs fs indent; rfl
  · intro key x xs fs indent; rfl
  · intro x xs indent; rfl
  · intro x xs indent; rfl

/-- The credentials of the counterexample: an explicitly supplied port 0. -/
def portZeroCredentials : KeeneticCredentials :=
  ⟨"192.168.1.1", "admin", "admin", some 0, none⟩

/-- C8 counterexample: with a supplied port of `0` (falsy in JS), the base
URL carries no port suffix, against "the port suffix appears exactly when
a port is supplied". -/
theorem keenetic_baseurl_counterexample :
    portZeroCredentials.port = some 0
    ∧ getBaseUrl portZeroCredentials = "https://192.168.1.1"
    ∧ getBaseUrl portZeroCredentials ≠ "https://192.168.1.1:0" := by
  refine ⟨rfl, rfl, by decide⟩

/-- C8 amended: the base URL is `scheme://host[:port]` with scheme
`https` in every case — including an absent `secure` — except
`secure === false`, where it is `http`; and the `:port` suffix appears
exactly when a non-zero port is supplied (a supplied port `0` behaves
like an absent one). -/
theorem keenetic_baseurl_contract (credentials : KeeneticCredentials) :
    getBaseUrl credentials = specBaseUrl credentials := by
  rcases credentials with ⟨host, user, pass, port, secure⟩
  unfold getBaseUrl specBaseUrl specScheme specPortSuffix
  rcases secure with - | b
  · rfl
  · rcases b with - | - <;> rfl

/-- C9: the outgoing header object holds the Basic credential
(`"Basic "` + base64 of `username:password`) and
`Content-Type: application/json`; a caller-supplied assignment to either
name overrides the default (the other default standing), and any other
name is present exactly as the caller supplied it. -/
theorem keenetic_header_merge (credentials : KeeneticCredentials)
    (callerHeaders : List (String × String)) (name : String) :
    headerLookup (requestHeaders credentials callerHeaders) "Authorization"
        = some ((headerLookup callerHeaders "Authorization").getD
            ("Basic " ++ btoa (credentials.username ++ ":" ++ credentials.password)))
    ∧ headerLookup (requestHeaders credentials callerHeaders) "Content-Type"
        = some ((headerLookup callerHeaders "Content-Type").getD "application/json")
    ∧ (name ≠ "Authorization" → name ≠ "Content-Type" →
        headerLookup (requestHeaders credentials callerHeaders) name
          = headerLookup callerHeaders name) := by
  refine ⟨?_, ?_, ?_⟩
  · unfold requestHeaders
    rw [headerLookup_append]
    cases hc : headerLookup callerHeaders "Authorization" with
    | some v => rfl
    | none => rfl
  · unfold requestHeaders
    rw [headerLookup_append]
    cases hc : headerLookup callerHeaders "Content-Type" with
    | some v => rfl
    | none => rfl
  · intro h1 h2
    unfold requestHeaders
    rw [headerLookup_append]
    have hd : headerLookup
        [("Authorization", authHeaderValue credentials),
         ("Content-Type", "application/json")] name = none := by
      unfold headerLookup
      simp only [List.foldl_cons, List.foldl_nil]
      rw [if_neg (fun h => h2 h.symm), if_neg (fun h => h1 h.symm)]
    rw [hd]
    cases hc : headerLookup callerHeaders name with
    | some v => rfl
    | none => rfl

/-- C9 witness: the merge contract at concrete credentials and caller
headers, the distinct-name hypotheses discharged by `decide`. -/
theorem keenetic_header_merge_witness :
    headerLookup (requestHeaders portZeroCredentials
        [("Content-Type", "text/plain"), ("X-Custom", "1")]) "X-Custom"
      = some "1" := by
  have h := (keenetic_header_merge portZeroCredentials
    [("Content-Type", "text/plain"), ("X-Custom", "1")] "X-Custom").2.2
    (by decide) (by decide)
  rw [h]
  rfl

/-- Options supplying an explicit `0` for every numeric tunable. -/
def zeroTunableOptions (credentials : KeeneticCredentials) : KeeneticControlOptions :=
  { credentials := credentials, timeout := some 0, retryCount := some 0,
    retryDelay := some 0, debug := none }

/-- Options supplying none of the tunables. -/
def absentTunableOptions (credentials : KeeneticCredentials) : KeeneticControlOptions :=
  { credentials := credentials, timeout := none, retryCount := none,
    retryDelay := none, debug := none }

/-- C10: a supplied `0` (falsy under JS `||`), like an absent value,
yields the defaults — timeout 10000 ms, retryCount 3, retryDelay 1000 ms;
in particular `retryCount: 0` does not disable retries: against a
persistently failing transport, a client constructed with `retryCount: 0`
still drives `request` to 4 transport invocations (3 retries) before
rejecting. -/
theorem keenetic_falsy_defaults (credentials : KeeneticCredentials) :
    (mkKeeneticControl (zeroTunableOptions credentials)).timeout = 10000
    ∧ (mkKeeneticControl (zeroTunableOptions credentials)).retryCount = 3
    ∧ (mkKeeneticControl (zeroTunableOptions credentials)).retryDelay = 1000
    ∧ mkKeeneticControl (zeroTunableOptions credentials)
        = mkKeeneticControl (absentTunableOptions credentials)
    ∧ (mkKeeneticControl (absentTunableOptions credentials)).timeout = 10000
    ∧ (mkKeeneticControl (absentTunableOptions credentials)).retryCount = 3
    ∧ (mkKeeneticControl (absentTunableOptions credentials)).retryDelay = 1000
    ∧ (∀ req, (request alwaysFailTransport req
          (mkKeeneticControl (zeroTunableOptions credentials)).retryCount).2 = 4
        ∧ (request alwaysFailTransport req
          (mkKeeneticControl (zeroTunableOptions credentials)).retryCount).1.isOk = false) := by
  refine ⟨rfl, rfl, rfl, rfl, rfl, rfl, rfl, fun req => ⟨rfl, rfl⟩⟩
